import Mathlib

/-!
Shallow embedding of the tutorial notebook
`1-TMVA-Classification-py-checkpoint.ipynb`.

The notebook is a linear Python script driving the ROOT/TMVA toolkit.  We
embed its cells as data: each cell is markdown, executable code, or a
deactivated raw cell, and each code statement is either a module import, an
assignment of a literal to a name, a call into the toolkit (optionally
binding its result to a name), or a notebook magic directive.  The statement
type also carries constructors for constructs the notebook COULD have used
(try/except handlers, conditional checks, thread creation, callback
registration) so that their absence is a fact about the program, not about
the type; none of them occurs in the embedded source.
-/

/-- An expression occurring as a call argument in the notebook.  The source
contains only string literals, numeric literals (kept as their source text,
e.g. "1.0"), attribute-path enum constants such as `ROOT.TMVA.Types.kBDT`,
and references to previously bound names.  `binop` represents a compound
arithmetic/string expression; the notebook never builds one. -/
inductive Expr where
  | strLit (s : String)
  | numLit (s : String)
  | enumConst (path : String)
  | name (x : String)
  | binop (op : String) (a b : Expr)
deriving DecidableEq, Repr

/-- The callee of a toolkit call: either a static/module path such as
`ROOT.TFile.Open` or `ROOT.TMVA.Factory`, or a method on a bound object
such as `factory.BookMethod`. -/
inductive Callee where
  | static (path : String)
  | method (obj : String) (meth : String)
deriving DecidableEq, Repr

/-- One notebook statement. -/
inductive Stmt where
  | moduleImport (modPath : String)
  | assignLit (x : String) (e : Expr)
  | call (bindName : Option String) (callee : Callee) (args : List Expr)
  | magic (directive : String)
  | tryExcept
  | ifCheck (cond : Expr)
  | spawnThread (target : Expr)
  | registerCallback (f : Expr)
deriving DecidableEq, Repr

/-- Kind of a notebook cell: markdown commentary, executable code, or a raw
(deactivated) cell whose text is never run. -/
inductive CellKind where
  | markdownCell
  | codeCell
  | rawCell
deriving DecidableEq, Repr

/-- A notebook cell: its kind and the statements its text holds (empty for
markdown cells). -/
structure Cell where
  kind : CellKind
  stmts : List Stmt
deriving DecidableEq, Repr

namespace Notebook

open Expr Callee Stmt CellKind

/-- cell-3: open the training-output file in RECREATE mode. -/
def openOutput : Stmt :=
  .call (some "outputFile") (.static "ROOT.TFile.Open")
    [.strLit "ClassificationOutput.root", .strLit "RECREATE"]

/-- cell-3: construct the TMVA factory. -/
def factoryCtor : Stmt :=
  .call (some "factory") (.static "ROOT.TMVA.Factory")
    [.strLit "TMVA_Classification", .name "outputFile",
     .strLit "!V:ROC:!Silent:Color:!DrawProgressBar:AnalysisType=Classification"]

/-- cell-5: open the input data file. -/
def openInput : Stmt :=
  .call (some "inputFile") (.static "ROOT.TFile.Open") [.name "inputFileName"]

/-- cell-5: retrieve the signal tree. -/
def getSignalTree : Stmt :=
  .call (some "signalTree") (.method "inputFile" "Get") [.strLit "sig_tree"]

/-- cell-5: retrieve the background tree. -/
def getBackgroundTree : Stmt :=
  .call (some "backgroundTree") (.method "inputFile" "Get") [.strLit "bkg_tree"]

/-- cell-9: register the signal tree on the data loader. -/
def addSignalTree : Stmt :=
  .call none (.method "loader" "AddSignalTree") [.name "signalTree", .name "signalWeight"]

/-- cell-9: register the background tree on the data loader. -/
def addBackgroundTree : Stmt :=
  .call none (.method "loader" "AddBackgroundTree")
    [.name "backgroundTree", .name "backgroundWeight"]

/-- cell-11: the option string of the train/test split call, spelled in the
source as two adjacent Python string literals, which concatenate. -/
def prepareOptions : String :=
  "nTrain_Signal=7000:nTrain_Background=7000:SplitMode=Random:NormMode=NumEvents:!V"

/-- cell-11: the train/test split call. -/
def prepareCall : Stmt :=
  .call none (.method "loader" "PrepareTrainingAndTestTree")
    [.name "mycuts", .name "mycutb", .strLit prepareOptions]

/-- cell-13: the BDT hyperparameter option string (adjacent string literals
in the source concatenate into one string). -/
def bdtOptions : String :=
  "!V:NTrees=200:MinNodeSize=2.5%:MaxDepth=2:BoostType=AdaBoost:AdaBoostBeta=0.5:UseBaggedBoost:BaggedSampleFraction=0.5:SeparationType=GiniIndex:nCuts=20"

/-- cell-13: book the boosted-decision-tree method. -/
def bookBDT : Stmt :=
  .call none (.method "factory" "BookMethod")
    [.name "loader", .enumConst "ROOT.TMVA.Types.kBDT", .strLit "BDT", .strLit bdtOptions]

/-- cell-13: the MLP hyperparameter option string. -/
def mlpOptions : String :=
  "!H:!V:NeuronType=tanh:VarTransform=N:NCycles=100:HiddenLayers=N+5:TestRate=5:!UseRegulator"

/-- cell-13: book the multi-layer-perceptron method. -/
def bookMLP : Stmt :=
  .call none (.method "factory" "BookMethod")
    [.name "loader", .enumConst "ROOT.TMVA.Types.kMLP", .strLit "MLP", .strLit mlpOptions]

/-- cell-15 (raw, deactivated): scikit-learn gradient-boosting booking. -/
def bookPyGTB : Stmt :=
  .call none (.method "factory" "BookMethod")
    [.name "loader", .enumConst "ROOT.TMVA.Types.kPyGTB", .strLit "PyGTB",
     .strLit "H:!V:VarTransform=G:NEstimators=400:LearningRate=0.1:MaxDepth=3"]

/-- cell-15 (raw, deactivated): scikit-learn random-forest booking. -/
def bookPyRandomForest : Stmt :=
  .call none (.method "factory" "BookMethod")
    [.name "loader", .enumConst "ROOT.TMVA.Types.kPyRandomForest", .strLit "PyRandomForest",
     .strLit "!V:VarTransform=G:NEstimators=400:Criterion=gini:MaxFeatures=auto:MaxDepth=6:MinSamplesLeaf=3:MinWeightFractionLeaf=0:Bootstrap=kTRUE"]

/-- cell-15 (raw, deactivated): scikit-learn AdaBoost booking. -/
def bookPyAdaBoost : Stmt :=
  .call none (.method "factory" "BookMethod")
    [.name "loader", .enumConst "ROOT.TMVA.Types.kPyAdaBoost", .strLit "PyAdaBoost",
     .strLit "!V:VarTransform=G:NEstimators=400"]

/-- cell-26: close the output file. -/
def closeOutput : Stmt :=
  .call none (.method "outputFile" "Close") []

/-- The notebook's cells, in order, transcribed from the source file.
Markdown cells carry no statements. -/
def notebookCells : List Cell :=
  [ ⟨.markdownCell, []⟩,                                  -- cell-0: title/intro
    ⟨.codeCell,                                           -- cell-1
      [ .moduleImport "ROOT",
        .moduleImport "ROOT.TMVA" ]⟩,
    ⟨.markdownCell, []⟩,                                  -- cell-2: Declare Factory
    ⟨.codeCell,                                           -- cell-3
      [ .call none (.static "ROOT.TMVA.Tools.Instance") [],
        .call none (.static "TMVA.PyMethodBase.PyInitialize") [],
        openOutput,
        factoryCtor ]⟩,
    ⟨.markdownCell, []⟩,                                  -- cell-4: Input Data
    ⟨.codeCell,                                           -- cell-5
      [ .assignLit "inputFileName" (.strLit "data/tmva_data.root"),
        openInput,
        getSignalTree,
        getBackgroundTree ]⟩,
    ⟨.markdownCell, []⟩,                                  -- cell-6
    ⟨.codeCell,                                           -- cell-7
      [ .call none (.method "signalTree" "Print") [] ]⟩,
    ⟨.markdownCell, []⟩,                                  -- cell-8: DataLoader
    ⟨.codeCell,                                           -- cell-9
      [ .call (some "loader") (.static "ROOT.TMVA.DataLoader") [.strLit "dataset"],
        .assignLit "signalWeight" (.numLit "1.0"),
        .assignLit "backgroundWeight" (.numLit "1.0"),
        addSignalTree,
        addBackgroundTree,
        .call none (.method "loader" "AddVariable") [.strLit "m_jj"],
        .call none (.method "loader" "AddVariable") [.strLit "m_jjj"],
        .call none (.method "loader" "AddVariable") [.strLit "m_lv"],
        .call none (.method "loader" "AddVariable") [.strLit "m_jlv"],
        .call none (.method "loader" "AddVariable") [.strLit "m_bb"],
        .call none (.method "loader" "AddVariable") [.strLit "m_wbb"],
        .call none (.method "loader" "AddVariable") [.strLit "m_wwbb"] ]⟩,
    ⟨.markdownCell, []⟩,                                  -- cell-10: Setup Dataset
    ⟨.codeCell,                                           -- cell-11
      [ .call (some "mycuts") (.static "ROOT.TCut") [.strLit ""],
        .call (some "mycutb") (.static "ROOT.TCut") [.strLit ""],
        prepareCall ]⟩,
    ⟨.markdownCell, []⟩,                                  -- cell-12: Booking Methods
    ⟨.codeCell,                                           -- cell-13
      [ bookBDT,
        bookMLP ]⟩,
    ⟨.markdownCell, []⟩,                                  -- cell-14: scikit-learn (optional)
    ⟨.rawCell,                                            -- cell-15 (deactivated)
      [ bookPyGTB,
        bookPyRandomForest,
        bookPyAdaBoost ]⟩,
    ⟨.markdownCell, []⟩,                                  -- cell-16: Train Methods
    ⟨.codeCell,                                           -- cell-17
      [ .call none (.method "factory" "TrainAllMethods") [] ]⟩,
    ⟨.markdownCell, []⟩,                                  -- cell-18: Test all methods
    ⟨.codeCell,                                           -- cell-19
      [ .call none (.method "factory" "TestAllMethods") [] ]⟩,
    ⟨.markdownCell, []⟩,                                  -- cell-20: Evaluate all methods
    ⟨.codeCell,                                           -- cell-21
      [ .call none (.method "factory" "EvaluateAllMethods") [] ]⟩,
    ⟨.markdownCell, []⟩,                                  -- cell-22: Plot ROC Curve
    ⟨.codeCell,                                           -- cell-23
      [ .magic "%jsroot on" ]⟩,
    ⟨.codeCell,                                           -- cell-24
      [ .call (some "c1") (.method "factory" "GetROCCurve") [.name "loader"],
        .call none (.method "c1" "Draw") [] ]⟩,
    ⟨.markdownCell, []⟩,                                  -- cell-25
    ⟨.codeCell,                                           -- cell-26
      [ closeOutput ]⟩,
    ⟨.codeCell, []⟩ ]                                     -- cell-27 (empty)

/-- The statements a run of the notebook executes: the code cells' statements
in order.  Markdown and raw (deactivated) cells contribute nothing. -/
def executedStmts : List Stmt :=
  ((notebookCells.filter (fun c => c.kind == CellKind.codeCell)).map Cell.stmts).flatten

/-- All statements appearing anywhere in the notebook's text, raw cells
included. -/
def allStmts : List Stmt :=
  (notebookCells.map Cell.stmts).flatten

end Notebook

/-- Is the statement a call into the toolkit (as opposed to an import,
assignment, magic directive, or control construct)? -/
def Stmt.isToolkitCall : Stmt → Bool
  | .call _ _ _ => true
  | _ => false

/-- Is the statement a call to the given static/module path? -/
def isStaticCall (p : String) : Stmt → Bool
  | .call _ (.static q) _ => q == p
  | _ => false

/-- Is the statement a method call `obj.meth(...)`? -/
def isMethodCall (obj meth : String) : Stmt → Bool
  | .call _ (.method o m) _ => o == obj && m == meth
  | _ => false

/-- The name a statement binds, if any. -/
def Stmt.boundName : Stmt → Option String
  | .assignLit x _ => some x
  | .call b _ _ => b
  | _ => none

/-- The arguments of a statement (empty for non-calls). -/
def Stmt.argsOf : Stmt → List Expr
  | .call _ _ as => as
  | _ => []

/-- Does the statement use the name `x`: as its call receiver or among its
arguments? -/
def usesName (x : String) : Stmt → Bool
  | .call _ (.method o _) as => o == x || as.contains (Expr.name x)
  | .call _ (.static _) as => as.contains (Expr.name x)
  | _ => false

/-- Every statement satisfying `p` occurs strictly before every statement
satisfying `q`, and both occur at least once. -/
def allBefore (p q : Stmt → Bool) (l : List Stmt) : Bool :=
  (l.enum.all fun is =>
    !(p is.2) || (l.enum.all fun jt => !(q jt.2) || decide (is.1 < jt.1)))
  && l.any p && l.any q

/-- Split a character list at colons. -/
def splitColonAux : List Char → List Char → List (List Char)
  | [], acc => [acc.reverse]
  | c :: cs, acc =>
    if c = ':' then acc.reverse :: splitColonAux cs [] else splitColonAux cs (c :: acc)

/-- The individual settings of a colon-delimited TMVA option string. -/
def colonSettings (s : String) : List String :=
  (splitColonAux s.data []).map List.asString

example : Notebook.executedStmts.length = 35 := by decide

example :
    colonSettings "!V:NTrees=200:MaxDepth=2" = ["!V", "NTrees=200", "MaxDepth=2"] := by
  decide

example :
    allBefore (isMethodCall "factory" "TrainAllMethods")
      (isMethodCall "factory" "TestAllMethods") Notebook.executedStmts = true := by
  decide

/-- Is the expression a literal constant in the sense of the spec: a string
literal or a numeric literal? -/
def isLiteralConst : Expr → Bool
  | .strLit _ => true
  | .numLit _ => true
  | _ => false

/-- The most recent statement strictly before position `i` of `l` that binds
the name `x` (so `x` is not rebound between that statement and position `i`). -/
def lastBindingBefore (l : List Stmt) (i : Nat) (x : String) : Option Stmt :=
  ((l.take i).filter (fun s => s.boundName == some x)).getLast?

/-- The argument discipline the spec claims, literally: an argument to a
toolkit call is a literal constant (a string or numeric literal, possibly
through a name that currently stands for one), or a handle returned by an
earlier toolkit call and not rebound in between.  Enum-constant attribute
paths such as `ROOT.TMVA.Types.kBDT` and compound expressions fall outside
this description. -/
def argOkStated (l : List Stmt) (i : Nat) : Expr → Bool
  | .strLit _ => true
  | .numLit _ => true
  | .name x =>
    match lastBindingBefore l i x with
    | some (.assignLit _ e) => isLiteralConst e
    | some (.call _ _ _) => true
    | _ => false
  | _ => false

/-- The argument discipline amended to also admit toolkit enum constants
(attribute paths such as `ROOT.TMVA.Types.kBDT`). -/
def argOkAmended (l : List Stmt) (i : Nat) : Expr → Bool
  | .enumConst _ => true
  | e => argOkStated l i e

/-- Every argument of every toolkit call in `l` satisfies the spec's literal
argument discipline. -/
def allCallArgsOkStated (l : List Stmt) : Bool :=
  l.enum.all fun is => (Stmt.argsOf is.2).all (argOkStated l is.1)

/-- Every argument of every toolkit call in `l` satisfies the amended
argument discipline (enum constants admitted). -/
def allCallArgsOkAmended (l : List Stmt) : Bool :=
  l.enum.all fun is => (Stmt.argsOf is.2).all (argOkAmended l is.1)

/-- Position of the first statement of `l` binding the name `x`. -/
def bindIdx (l : List Stmt) (x : String) : Option Nat :=
  l.findIdx? (fun s => s.boundName == some x)

/-- The first statement strictly after position `i` of `l` that uses the
name `x` (as receiver or argument). -/
def firstUseAfter (l : List Stmt) (i : Nat) (x : String) : Option Stmt :=
  (l.drop (i + 1)).find? (usesName x)

/-- Is the statement a try/except exception handler? -/
def Stmt.isExcHandler : Stmt → Bool
  | .tryExcept => true
  | _ => false

/-- Is the statement a conditional check? -/
def Stmt.isCondCheck : Stmt → Bool
  | .ifCheck _ => true
  | _ => false

/-- Is the statement in the purely sequential fragment: a module import, a
literal assignment, a toolkit call, or a notebook magic directive — i.e. not
a thread creation, callback registration, conditional, or exception
handler? -/
def Stmt.isSequentialKind : Stmt → Bool
  | .moduleImport _ => true
  | .assignLit _ _ => true
  | .call _ _ _ => true
  | .magic _ => true
  | _ => false

/-- The `(method type enum, method name, option string)` triple of a
BookMethod-style call. -/
def bookingSpec : Stmt → Option (String × String × String)
  | .call _ _ [_, .enumConst t, .strLit n, .strLit o] => some (t, n, o)
  | _ => none

/-- A plain identifier: nonempty, letters, digits and underscores only (so
not an arithmetic expression over branches). -/
def isPlainIdent (s : String) : Bool :=
  !s.data.isEmpty && s.data.all (fun c => c.isAlpha || c.isDigit || c == '_')

namespace Notebook

/-- Step (a) of the pipeline: library initialization. -/
def stepInit : Stmt → Bool := fun s =>
  isStaticCall "ROOT.TMVA.Tools.Instance" s || isStaticCall "TMVA.PyMethodBase.PyInitialize" s

/-- Step (b): input-file opening and tree retrieval. -/
def stepInput : Stmt → Bool := fun s =>
  s == openInput || isMethodCall "inputFile" "Get" s

/-- Step (c): variable registration on the data loader. -/
def stepVars : Stmt → Bool := isMethodCall "loader" "AddVariable"

/-- Step (d): train/test partitioning. -/
def stepPrepare : Stmt → Bool := isMethodCall "loader" "PrepareTrainingAndTestTree"

/-- Step (e): method booking. -/
def stepBook : Stmt → Bool := isMethodCall "factory" "BookMethod"

/-- Step (f): training. -/
def stepTrain : Stmt → Bool := isMethodCall "factory" "TrainAllMethods"

/-- Step (g): testing. -/
def stepTest : Stmt → Bool := isMethodCall "factory" "TestAllMethods"

/-- Step (h): evaluation. -/
def stepEval : Stmt → Bool := isMethodCall "factory" "EvaluateAllMethods"

/-- Step (i): ROC plotting. -/
def stepROC : Stmt → Bool := isMethodCall "factory" "GetROCCurve"

end Notebook

open Notebook

/-- C1: the notebook's executed code performs its toolkit calls in pipeline
order — library initialization, input-file opening and tree retrieval,
variable registration, train/test partitioning, method booking, training,
testing, evaluation, ROC plotting — every occurrence of each earlier step
before every occurrence of every later step. -/
theorem c1_toolkit_call_order :
    (allBefore stepInit stepInput executedStmts
      && allBefore stepInput stepVars executedStmts
      && allBefore stepVars stepPrepare executedStmts
      && allBefore stepPrepare stepBook executedStmts
      && allBefore stepBook stepTrain executedStmts
      && allBefore stepTrain stepTest executedStmts
      && allBefore stepTest stepEval executedStmts
      && allBefore stepEval stepROC executedStmts) = true := by decide

/-- C2: exactly two BookMethod calls execute — one of type kBDT named "BDT"
and one of type kMLP named "MLP", each with a non-empty option string — and
the scikit-learn bookings (PyGTB, PyRandomForest, PyAdaBoost) sit in the
single deactivated raw cell and are not among the executed statements. -/
theorem c2_booked_methods :
    executedStmts.filter stepBook = [bookBDT, bookMLP]
    ∧ bookingSpec bookBDT = some ("ROOT.TMVA.Types.kBDT", "BDT", bdtOptions)
    ∧ bookingSpec bookMLP = some ("ROOT.TMVA.Types.kMLP", "MLP", mlpOptions)
    ∧ bdtOptions.data ≠ [] ∧ mlpOptions.data ≠ []
    ∧ notebookCells.filter (fun c => c.kind == CellKind.rawCell) =
        [⟨CellKind.rawCell, [bookPyGTB, bookPyRandomForest, bookPyAdaBoost]⟩]
    ∧ bookPyGTB ∉ executedStmts
    ∧ bookPyRandomForest ∉ executedStmts
    ∧ bookPyAdaBoost ∉ executedStmts := by decide

/-- C3: the BDT booking's option string is colon-delimited and its settings
include !V, NTrees=200, MaxDepth=2 and BoostType=AdaBoost, among others. -/
theorem c3_bdt_option_settings :
    colonSettings bdtOptions =
      ["!V", "NTrees=200", "MinNodeSize=2.5%", "MaxDepth=2", "BoostType=AdaBoost",
       "AdaBoostBeta=0.5", "UseBaggedBoost", "BaggedSampleFraction=0.5",
       "SeparationType=GiniIndex", "nCuts=20"]
    ∧ ((colonSettings bdtOptions).contains "!V"
        && (colonSettings bdtOptions).contains "NTrees=200"
        && (colonSettings bdtOptions).contains "MaxDepth=2"
        && (colonSettings bdtOptions).contains "BoostType=AdaBoost") = true := by decide

/-- C4 counterexample: the claim's argument discipline — every toolkit-call
argument is a string literal, a numeric literal, an empty TCut, or a handle
returned by an earlier toolkit call — fails on the executed notebook: the
BookMethod call for the BDT passes the enum-constant attribute path
`ROOT.TMVA.Types.kBDT`, which is none of those. -/
theorem c4_counterexample_enum_argument :
    allCallArgsOkStated executedStmts = false
    ∧ executedStmts[26]? = some bookBDT
    ∧ (Expr.enumConst "ROOT.TMVA.Types.kBDT") ∈ Stmt.argsOf bookBDT
    ∧ argOkStated executedStmts 26 (Expr.enumConst "ROOT.TMVA.Types.kBDT") = false := by decide

/-- C4 amended: every argument the notebook passes to a toolkit call is a
literal constant (a string or numeric literal, possibly through a name bound
once to one), a toolkit enum constant such as `ROOT.TMVA.Types.kBDT`, or a
handle returned by an earlier toolkit call and not rebound in between; the
notebook builds no compound expression of its own between toolkit calls. -/
theorem c4_argument_discipline_amended :
    allCallArgsOkAmended executedStmts = true := by decide

/-- C5: the notebook contains no exception interception and no error check:
no statement anywhere in its cells (raw cells included) is a try/except
handler or a conditional check, so any toolkit error propagates unchanged. -/
theorem c5_no_exception_handling :
    allStmts.all (fun s => !(Stmt.isExcHandler s) && !(Stmt.isCondCheck s)) = true := by
  decide

/-- C6: the notebook's own code is purely sequential: every statement in
every cell is a module import, a literal assignment, a toolkit call, or a
magic directive — no thread creation, callback registration, conditional, or
exception handler occurs. -/
theorem c6_purely_sequential :
    allStmts.all Stmt.isSequentialKind = true := by decide

/-- C7: train/test partitioning happens exactly once, after variable
registration and before any booking, via one PrepareTrainingAndTestTree call
whose two cut arguments are names last bound to `ROOT.TCut("")` (the empty
TCut) and whose option string carries nTrain_Signal=7000,
nTrain_Background=7000, SplitMode=Random and NormMode=NumEvents. -/
theorem c7_train_test_split :
    executedStmts.filter stepPrepare = [prepareCall]
    ∧ allBefore stepVars stepPrepare executedStmts = true
    ∧ allBefore stepPrepare stepBook executedStmts = true
    ∧ executedStmts[25]? = some prepareCall
    ∧ lastBindingBefore executedStmts 25 "mycuts" =
        some (.call (some "mycuts") (.static "ROOT.TCut") [.strLit ""])
    ∧ lastBindingBefore executedStmts 25 "mycutb" =
        some (.call (some "mycutb") (.static "ROOT.TCut") [.strLit ""])
    ∧ ((colonSettings prepareOptions).contains "nTrain_Signal=7000"
        && (colonSettings prepareOptions).contains "nTrain_Background=7000"
        && (colonSettings prepareOptions).contains "SplitMode=Random"
        && (colonSettings prepareOptions).contains "NormMode=NumEvents") = true := by decide

/-- C8: the output file "ClassificationOutput.root" is opened in RECREATE
mode (unconditionally overwriting any existing file of that name) before the
factory is constructed, and the single Close call on it is the last toolkit
call of the run, after evaluation and ROC plotting. -/
theorem c8_output_file_lifecycle :
    allBefore (fun s => s == openOutput) (fun s => s == factoryCtor) executedStmts = true
    ∧ openOutput = .call (some "outputFile") (.static "ROOT.TFile.Open")
        [.strLit "ClassificationOutput.root", .strLit "RECREATE"]
    ∧ executedStmts.filter (isMethodCall "outputFile" "Close") = [closeOutput]
    ∧ allBefore stepEval (fun s => s == closeOutput) executedStmts = true
    ∧ allBefore stepROC (fun s => s == closeOutput) executedStmts = true
    ∧ (executedStmts.filter Stmt.isToolkitCall).getLast? = some closeOutput := by decide

/-- C9: the notebook never checks the validity of the input-file handle or
of the retrieved trees: no conditional check or exception handler exists
anywhere, and the first statement using each handle after its binding is a
plain use — `inputFile.Get("sig_tree")` for the input file, the tree
printing for the signal tree, and `loader.AddBackgroundTree` for the
background tree — so an invalid handle can only fail there, not at the
open/retrieval site. -/
theorem c9_no_handle_validity_checks :
    allStmts.all (fun s => !(Stmt.isCondCheck s) && !(Stmt.isExcHandler s)) = true
    ∧ bindIdx executedStmts "inputFile" = some 7
    ∧ firstUseAfter executedStmts 7 "inputFile" = some getSignalTree
    ∧ bindIdx executedStmts "signalTree" = some 8
    ∧ firstUseAfter executedStmts 8 "signalTree" =
        some (.call none (.method "signalTree" "Print") [])
    ∧ bindIdx executedStmts "backgroundTree" = some 9
    ∧ firstUseAfter executedStmts 9 "backgroundTree" = some addBackgroundTree := by decide

/-- C10: exactly one signal tree and one background tree are registered,
each with a global weight name last bound to the numeric literal 1.0, and
exactly seven variables are registered by plain AddVariable calls whose sole
argument is a plain-identifier string: m_jj, m_jjj, m_lv, m_jlv, m_bb,
m_wbb, m_wwbb. -/
theorem c10_loader_registration :
    executedStmts.filter (isMethodCall "loader" "AddSignalTree") = [addSignalTree]
    ∧ executedStmts.filter (isMethodCall "loader" "AddBackgroundTree") = [addBackgroundTree]
    ∧ executedStmts[14]? = some addSignalTree
    ∧ executedStmts[15]? = some addBackgroundTree
    ∧ lastBindingBefore executedStmts 14 "signalWeight" =
        some (.assignLit "signalWeight" (.numLit "1.0"))
    ∧ lastBindingBefore executedStmts 15 "backgroundWeight" =
        some (.assignLit "backgroundWeight" (.numLit "1.0"))
    ∧ (executedStmts.filter (isMethodCall "loader" "AddVariable")).map Stmt.argsOf =
        [[.strLit "m_jj"], [.strLit "m_jjj"], [.strLit "m_lv"], [.strLit "m_jlv"],
         [.strLit "m_bb"], [.strLit "m_wbb"], [.strLit "m_wwbb"]]
    ∧ (["m_jj", "m_jjj", "m_lv", "m_jlv", "m_bb", "m_wbb", "m_wwbb"].all isPlainIdent)
        = true := by decide
